import Mathlib

/-
Verification of the BookSmith repository (a browser-based e-book creation
assistant).  The development shallowly embeds the relevant program logic:

* `GeminiService.sendMessage` and `GeminiService.generateChapterContent`
  (services/geminiService.ts): the retry loops are modelled as fuel-indexed
  recursions over an oracle describing the outcome of each remote call.  The
  oracle absorbs the remote model; each iteration of a loop performs exactly
  one remote call, so the call index equals the value of the `attempts`
  counter at the start of the iteration.  Every remote interaction and delay
  is recorded in an event trace.
* The `create_ebook` tool handler and its background generation loop.
* The chapter-edit callback, project save/load and localStorage JSON
  persistence in App.tsx, over a JavaScript value domain `JsVal`.
* `ApiKeyModal.validateAndSave` and the `EBookReader` chapter navigation.

String classification of errors mirrors the source: JavaScript
`toLowerCase` becomes `jsToLowerCase` and `String.prototype.includes`
becomes `jsIncludes`.
-/

/-- Model of JavaScript `String.prototype.startsWith` on character lists. -/
def charsPrefixOf : List Char → List Char → Bool
  | [], _ => true
  | _ :: _, [] => false
  | c :: cs, d :: ds => c == d && charsPrefixOf cs ds

/-- Containment of `needle` as a contiguous run inside a character list. -/
def charsContains (needle : List Char) : List Char → Bool
  | [] => charsPrefixOf needle []
  | c :: rest => charsPrefixOf needle (c :: rest) || charsContains needle rest

/-- Model of JavaScript `hay.includes(needle)`. -/
def jsIncludes (hay needle : String) : Bool := charsContains needle.data hay.data

/-- Model of JavaScript `String.prototype.toLowerCase` (characterwise). -/
def jsToLowerCase (s : String) : String := String.mk (s.data.map Char.toLower)

/-- Model of JavaScript `String.prototype.trim`: strip leading and
trailing whitespace. -/
def jsTrim (s : String) : String :=
  String.mk (((s.data.dropWhile Char.isWhitespace).reverse.dropWhile
    Char.isWhitespace).reverse)

/-- JavaScript value domain for the persisted data: JSON values plus `Date`
objects (which `JSON.stringify` serializes via their `toJSON` method).
Numbers are modelled as integers; all numeric fields of this program are
produced as integers or survive the JSON round-trip unchanged either way. -/
inductive JsVal where
  | null : JsVal
  | bool (b : Bool) : JsVal
  | num (n : Int) : JsVal
  | str (s : String) : JsVal
  | date (millis : Int) : JsVal
  | arr (elems : List JsVal) : JsVal
  | obj (fields : List (String × JsVal)) : JsVal

mutual

/-- Composite semantics of `JSON.parse(JSON.stringify v)` (App.tsx lines
33-36 and 58-60): plain JSON values are reproduced structurally, while a
`Date` is serialized through its string serialization `iso` (its `toJSON`)
and revived as that string, not as a `Date`. -/
def jsonRoundtrip (iso : Int → String) : JsVal → JsVal
  | .null => .null
  | .bool b => .bool b
  | .num n => .num n
  | .str s => .str s
  | .date m => .str (iso m)
  | .arr xs => .arr (jsonRoundtripList iso xs)
  | .obj fs => .obj (jsonRoundtripFields iso fs)

/-- Round-trip of a JSON array elementwise. -/
def jsonRoundtripList (iso : Int → String) : List JsVal → List JsVal
  | [] => []
  | x :: xs => jsonRoundtrip iso x :: jsonRoundtripList iso xs

/-- Round-trip of JSON object fields pointwise. -/
def jsonRoundtripFields (iso : Int → String) : List (String × JsVal) → List (String × JsVal)
  | [] => []
  | (k, v) :: fs => (k, jsonRoundtrip iso v) :: jsonRoundtripFields iso fs

end

/-- Field access on a `JsVal` object. -/
def objLookup (key : String) : JsVal → Option JsVal
  | .obj fields => (fields.find? (fun kv => kv.1 == key)).map Prod.snd
  | _ => none

/-- Index access on a `JsVal` array. -/
def arrGet (i : Nat) : JsVal → Option JsVal
  | .arr xs => xs[i]?
  | _ => none

/-- Chapter argument record of the `create_ebook` tool
(`createEBookTool.parameters`, services/geminiService.ts): each chapter the
model proposes has a title, an outline and an image keyword. -/
structure ArgChapter where
  title : String
  outline : String
  imageKeyword : String
deriving DecidableEq

/-- Arguments of a `create_ebook` function call. -/
structure CreateEbookArgs where
  title : String
  author : String
  description : String
  theme : String
  format : String
  chapters : List ArgChapter
deriving DecidableEq

namespace GeminiService

/-- The `maxAttempts` constant of `GeminiService.sendMessage`. -/
def maxAttempts : Nat := 3

/-- Oracle outcome of one `this.chat.sendMessage` call inside
`GeminiService.sendMessage`: either the promise rejects with an error whose
`message`/`toString` text is `e`, or it resolves to a response with a finish
reason, a text (empty string models a missing `response.text`) and a number
of function calls.  The per-call tool dispatch and the optional tool
acknowledgment are modelled separately (`createEbookBook`, `bgTask`); they
cannot alter the control flow of the retry loop because every exception they
can raise is caught and swallowed locally in the source. -/
inductive AttemptOutcome where
  | throwErr (e : String)
  | response (finishReason : Option String) (text : String) (functionCallCount : Nat)

/-- The body of the `try` block of `GeminiService.sendMessage` as a
fallible computation: malformed function calls, safety blocks and empty
responses are converted to thrown errors exactly as in the source; on
success the returned chat text (with the final
`|| "Content generated successfully!"` fallback) is produced. -/
def attemptTry : AttemptOutcome → Except String String
  | .throwErr e => .error e
  | .response finishReason text functionCallCount =>
    if finishReason == some "MALFORMED_FUNCTION_CALL" then .error "MALFORMED_JSON"
    else if finishReason == some "SAFETY" then .error "SAFETY_BLOCK"
    else if text == "" && functionCallCount == 0 then .error "EMPTY_RESPONSE"
    else .ok (if text == "" then "Content generated successfully!" else text)

/-- Observable events of `GeminiService.sendMessage`: a remote send of the
user message (with the exact message text used) or a `this.wait` delay. -/
inductive Ev where
  | send (message : String)
  | wait (ms : Nat)
deriving DecidableEq

/-- Final result of `GeminiService.sendMessage`: a normal return, a
rethrown error, or the fallback message produced when the loop exhausts its
attempts (it carries `lastError`). -/
inductive SendResult where
  | ok (text : String)
  | thrown (e : String)
  | fallback (lastError : String)
deriving DecidableEq

/-- The rephrasing suffix appended to the message on every retry
(`finalMessage += " (Focus on valid JSON. Keep outlines CONCISE.)"`). -/
def retrySuffix : String := " (Focus on valid JSON. Keep outlines CONCISE.)"

/-- The message text sent on the iteration whose `attempts` counter is
`attempts`: the original message, with the rephrasing suffix appended on
retries (`attempts > 0`). -/
def attemptMessage (message : String) (attempts : Nat) : String :=
  if attempts > 0 then message ++ retrySuffix else message

/-- The retry loop of `GeminiService.sendMessage` (source lines 250-361).
`fuel` is `maxAttempts - attempts` (the loop guard `attempts < maxAttempts`
holds iff `fuel > 0`; every path that continues the loop increments
`attempts` exactly once, so this bookkeeping is exact).  The catch block
classifies the error text after lowercasing: a text containing 429 or 503
waits `(attempts + 1) * 2000` ms and retries; a text containing 403 or
`key not valid` is rethrown; any other error retries after 1500 ms unless
the incremented counter reaches `maxAttempts`, in which case the loop
breaks and the fallback message is returned with that last error. -/
def sendLoop (env : Nat → AttemptOutcome) (message : String) :
    Nat → Nat → String → List Ev × SendResult
  | 0, _, lastError => ([], .fallback lastError)
  | fuel + 1, attempts, _ =>
    let finalMessage := attemptMessage message attempts
    match attemptTry (env attempts) with
    | .ok text => ([.send finalMessage], .ok text)
    | .error e =>
      let errStr := jsToLowerCase e
      if jsIncludes errStr "429" || jsIncludes errStr "503" then
        let rest := sendLoop env message fuel (attempts + 1) e
        (.send finalMessage :: .wait ((attempts + 1) * 2000) :: rest.1, rest.2)
      else if jsIncludes errStr "403" || jsIncludes errStr "key not valid" then
        ([.send finalMessage], .thrown e)
      else if attempts + 1 ≥ maxAttempts then
        ([.send finalMessage], .fallback e)
      else
        let rest := sendLoop env message fuel (attempts + 1) e
        (.send finalMessage :: .wait 1500 :: rest.1, rest.2)

/-- Model of `GeminiService.sendMessage` over the outcome oracle `env`:
returns the full event trace and the result.  The loop starts with
`attempts = 0` and `lastError = ""`. -/
def sendMessage (env : Nat → AttemptOutcome) (message : String) :
    List Ev × SendResult :=
  sendLoop env message maxAttempts 0 ""

/-- Number of remote sends of the user message in a trace. -/
def countSends : List Ev → Nat
  | [] => 0
  | .send _ :: rest => countSends rest + 1
  | .wait _ :: rest => countSends rest

/-- Oracle outcome of one `this.ai.models.generateContent` call inside
`GeminiService.generateChapterContent`: success with `result.text`
(`none` models an absent text, read back as the empty string), or a thrown
error with its `status` field and its `toString` text. -/
inductive GcOutcome where
  | ok (text : Option String)
  | err (status : Option Int) (text : String)

/-- The rate-limit test of `generateChapterContent`:
`e.status === 429 || e.toString().includes(429)` (no lowercasing here). -/
def gcIsRateLimit (status : Option Int) (etext : String) : Bool :=
  status == some 429 || jsIncludes etext "429"

/-- Observable events of `generateChapterContent`: one remote content
generation call, or a backoff delay. -/
inductive GcEv where
  | call : GcEv
  | wait (ms : Nat) : GcEv
deriving DecidableEq

/-- The retry loop of `GeminiService.generateChapterContent` (source lines
196-217), with `fuel = 3 - attempts` as for `sendLoop`.  A rate-limit error
backs off `2 ^ attempts * 2000` ms and retries; any other error immediately
returns the failure placeholder carrying the chapter outline; after the
third rate-limited attempt the loop exits and the after-retries placeholder
is returned.  The prompt built from the book metadata and the chapter
fields only feeds the remote call, which the oracle absorbs. -/
def gcLoop (gen : Nat → GcOutcome) (chapter : ArgChapter) :
    Nat → Nat → List GcEv × String
  | 0, _ => ([], "(Content generation failed after retries. Outline: " ++ chapter.outline ++ ")")
  | fuel + 1, attempts =>
    match gen attempts with
    | .ok text => ([.call], text.getD "")
    | .err status etext =>
      if gcIsRateLimit status etext then
        let waitTime := 2 ^ attempts * 2000
        let rest := gcLoop gen chapter fuel (attempts + 1)
        (.call :: .wait waitTime :: rest.1, rest.2)
      else
        ([.call], "(Content generation failed. Outline: " ++ chapter.outline ++ ")")

/-- Model of `GeminiService.generateChapterContent` over the outcome oracle
`gen`: the event trace and the returned content string.  The function body
contains no throw after the catch, so the model is total: every run
produces a string. -/
def generateChapterContent (gen : Nat → GcOutcome) (chapter : ArgChapter) :
    List GcEv × String :=
  gcLoop gen chapter 3 0

/-- Number of remote content generation calls in a trace. -/
def countGcCalls : List GcEv → Nat
  | [] => 0
  | .call :: rest => countGcCalls rest + 1
  | .wait _ :: rest => countGcCalls rest

/-- The chapter record built by the `create_ebook` handler
(`initialChapters` map, source lines 285-289): only the title, the image
keyword and an empty content field are kept. -/
def initialChapter (ch : ArgChapter) : JsVal :=
  .obj [("title", .str ch.title), ("imageKeyword", .str ch.imageKeyword),
        ("content", .str "")]

/-- The book value passed to `onEBookGenerated` by the `create_ebook`
handler: the argument object with its `chapters` replaced by the stripped
`initialChapters`. -/
def createEbookBook (args : CreateEbookArgs) : JsVal :=
  .obj [("title", .str args.title), ("author", .str args.author),
        ("description", .str args.description), ("theme", .str args.theme),
        ("format", .str args.format),
        ("chapters", .arr (args.chapters.map initialChapter))]

/-- Field of the i-th chapter record of a book value. -/
def bookChapterField (book : JsVal) (i : Nat) (field : String) : Option JsVal :=
  ((objLookup "chapters" book).bind (arrGet i)).bind (objLookup field)

/-- Observable events of the background generation task started by the
`create_ebook` handler: the fixed inter-chapter delay, a remote content
generation call for a chapter, a rate-limit backoff delay inside the
content generation of a chapter, and the delivery of generated content to
`onChapterEdited` with a chapter index. -/
inductive BgEv where
  | interChapterWait (ms : Nat)
  | remoteCall (chapter : Nat)
  | retryWait (chapter : Nat) (ms : Nat)
  | edited (index : Nat) (content : String)
deriving DecidableEq

/-- Tags the events of one content generation run with its chapter index. -/
def tagGcEv (i : Nat) : GcEv → BgEv
  | .call => .remoteCall i
  | .wait ms => .retryWait i ms

/-- The chapter object the background loop actually hands to
`generateChapterContent`.  In the handler, `const bookData = args` makes
`bookData` an alias of the arguments object, so the reassignment
`bookData.chapters = initialChapters` also replaced `args.chapters` with
the stripped records; `args.chapters[i].outline` is therefore `undefined`
despite the source comment `Use original outline`, and the spread
`{...ch, outline: args.chapters[i].outline}` yields the stripped chapter
with an undefined outline.  The outline is only ever interpolated into
strings (the prompt and the failure placeholders), where JavaScript
renders `undefined` as the text `undefined`, so the undefined outline is
modelled by that string. -/
def strippedChapter (ch : ArgChapter) : ArgChapter :=
  { title := ch.title, outline := "undefined", imageKeyword := ch.imageKeyword }

/-- The background generation loop of the `create_ebook` handler (source
lines 303-314), started at chapter index `i`: before every chapter except
the first it waits 2000 ms, then it runs `generateChapterContent` for the
stripped chapter (see `strippedChapter`: the aliasing of `bookData` and
`args` has already destroyed the original outlines) and delivers the
resulting content to `onChapterEdited` with the chapter index.  The list
argument holds the original argument chapters; the stripping is applied
per element.  `gen i` is the remote outcome oracle for chapter `i`. -/
def bgTaskFrom (gen : Nat → Nat → GcOutcome) : Nat → List ArgChapter → List BgEv
  | _, [] => []
  | i, ch :: rest =>
    (if i > 0 then [BgEv.interChapterWait 2000] else []) ++
    ((generateChapterContent (gen i) (strippedChapter ch)).1.map (tagGcEv i) ++
      [BgEv.edited i (generateChapterContent (gen i) (strippedChapter ch)).2]) ++
    bgTaskFrom gen (i + 1) rest

/-- The whole background generation task over the argument chapter list. -/
def bgTask (gen : Nat → Nat → GcOutcome) (chapters : List ArgChapter) : List BgEv :=
  bgTaskFrom gen 0 chapters

/-- Number of remote content generation calls for chapter `i` in a
background trace. -/
def countRemoteCalls (i : Nat) : List BgEv → Nat
  | [] => 0
  | .remoteCall j :: rest =>
    (if j = i then 1 else 0) + countRemoteCalls i rest
  | _ :: rest => countRemoteCalls i rest

/-- The `onChapterEdited` deliveries of a background trace, in order. -/
def editedEvents : List BgEv → List (Nat × String)
  | [] => []
  | .edited i c :: rest => (i, c) :: editedEvents rest
  | _ :: rest => editedEvents rest

/-- The slice of the background trace contributed by chapter `i`: the
2000 ms inter-chapter delay when `i > 0`, then the remote call and backoff
events of the content generation for the stripped chapter (the outline is
`undefined` by the aliasing described at `strippedChapter`), then the
delivery of the generated content to `onChapterEdited` with index `i`. -/
def chapterSegment (gen : Nat → Nat → GcOutcome) (i : Nat) (ch : ArgChapter) :
    List BgEv :=
  (if i > 0 then [BgEv.interChapterWait 2000] else []) ++
  ((generateChapterContent (gen i) (strippedChapter ch)).1.map (tagGcEv i) ++
    [BgEv.edited i (generateChapterContent (gen i) (strippedChapter ch)).2])

end GeminiService

/-- Sender tag of a chat message (types.ts `Sender`): serialized as the
strings `user` and `model`. -/
inductive Sender where
  | user : Sender
  | ai : Sender
deriving DecidableEq

/-- The JSON string value of a sender tag. -/
def Sender.toJsonString : Sender → String
  | .user => "user"
  | .ai => "model"

/-- Chat message record (types.ts `Message`).  The timestamp is a
JavaScript `Date`, modelled by its millisecond value; the optional
`isThinking` flag is never set by App.tsx and is omitted. -/
structure Message where
  id : String
  text : String
  sender : Sender
  timestamp : Int
deriving DecidableEq

/-- Chapter record of the data model (types.ts `Chapter`): title, content,
image keyword and an optional generated image URL.  There is no outline
field. -/
structure Chapter where
  title : String
  content : String
  imageKeyword : String
  imageUrl : Option String := none
deriving DecidableEq

/-- Book record (types.ts `EBook`).  The theme and format unions are
modelled as strings; their values never drive the logic verified here. -/
structure EBook where
  title : String
  author : String
  description : String
  theme : String
  format : String
  chapters : List Chapter
deriving DecidableEq

/-- Trend or forecast data point of a market snapshot. -/
structure TrendPoint where
  month : String
  value : Int
deriving DecidableEq

/-- Keyword entry of a market snapshot (types.ts `KeywordData`). -/
structure KeywordData where
  term : String
  volume : String
  competition : String
deriving DecidableEq

/-- Competitor entry of a market snapshot (types.ts `CompetitorInsight`). -/
structure CompetitorInsight where
  name : String
  marketShare : Int
  strength : String
  weakness : String
deriving DecidableEq

/-- Market snapshot record (types.ts `MarketData`). -/
structure MarketData where
  topic : String
  difficultyScore : Int
  potentialEarnings : Int
  trendData : List TrendPoint
  forecastData : List TrendPoint
  topKeywords : List KeywordData
  competitorInsights : List CompetitorInsight
deriving DecidableEq

/-- Saved project record (types.ts `SavedProject`). -/
structure SavedProject where
  id : String
  name : String
  book : EBook
  messages : List Message
  marketData : Option MarketData
  createdAt : Int
deriving DecidableEq

/-- JSON encoding of a chapter.  `JSON.stringify` drops an undefined
`imageUrl`, so the field is present only when set. -/
def encodeChapter (c : Chapter) : JsVal :=
  .obj ([("title", .str c.title), ("content", .str c.content),
         ("imageKeyword", .str c.imageKeyword)] ++
        (match c.imageUrl with
         | some u => [("imageUrl", .str u)]
         | none => []))

/-- JSON encoding of a book. -/
def encodeBook (b : EBook) : JsVal :=
  .obj [("title", .str b.title), ("author", .str b.author),
        ("description", .str b.description), ("theme", .str b.theme),
        ("format", .str b.format),
        ("chapters", .arr (b.chapters.map encodeChapter))]

/-- JSON encoding of a chat message: the timestamp is a `Date` value. -/
def encodeMessage (m : Message) : JsVal :=
  .obj [("id", .str m.id), ("text", .str m.text),
        ("sender", .str m.sender.toJsonString), ("timestamp", .date m.timestamp)]

/-- The shape of a chat message after a persistence round-trip: identical
except that the timestamp has been revived as its string serialization. -/
def encodeMessageReloaded (iso : Int → String) (m : Message) : JsVal :=
  .obj [("id", .str m.id), ("text", .str m.text),
        ("sender", .str m.sender.toJsonString), ("timestamp", .str (iso m.timestamp))]

/-- JSON encoding of a trend point. -/
def encodeTrendPoint (p : TrendPoint) : JsVal :=
  .obj [("month", .str p.month), ("value", .num p.value)]

/-- JSON encoding of a keyword entry. -/
def encodeKeywordData (k : KeywordData) : JsVal :=
  .obj [("term", .str k.term), ("volume", .str k.volume),
        ("competition", .str k.competition)]

/-- JSON encoding of a competitor entry. -/
def encodeCompetitorInsight (c : CompetitorInsight) : JsVal :=
  .obj [("name", .str c.name), ("marketShare", .num c.marketShare),
        ("strength", .str c.strength), ("weakness", .str c.weakness)]

/-- JSON encoding of a market snapshot. -/
def encodeMarketData (d : MarketData) : JsVal :=
  .obj [("topic", .str d.topic), ("difficultyScore", .num d.difficultyScore),
        ("potentialEarnings", .num d.potentialEarnings),
        ("trendData", .arr (d.trendData.map encodeTrendPoint)),
        ("forecastData", .arr (d.forecastData.map encodeTrendPoint)),
        ("topKeywords", .arr (d.topKeywords.map encodeKeywordData)),
        ("competitorInsights", .arr (d.competitorInsights.map encodeCompetitorInsight))]

/-- JSON encoding of a saved project, as persisted by
`localStorage.setItem(booksmith_projects, JSON.stringify(savedProjects))`. -/
def encodeProject (p : SavedProject) : JsVal :=
  .obj [("id", .str p.id), ("name", .str p.name),
        ("book", encodeBook p.book),
        ("messages", .arr (p.messages.map encodeMessage)),
        ("marketData", match p.marketData with
                       | some d => encodeMarketData d
                       | none => .null),
        ("createdAt", .num p.createdAt)]

/-- The shape of a persisted project after the serialize/parse round-trip:
identical except that each message timestamp is now a string. -/
def encodeProjectReloaded (iso : Int → String) (p : SavedProject) : JsVal :=
  .obj [("id", .str p.id), ("name", .str p.name),
        ("book", encodeBook p.book),
        ("messages", .arr (p.messages.map (encodeMessageReloaded iso))),
        ("marketData", match p.marketData with
                       | some d => encodeMarketData d
                       | none => .null),
        ("createdAt", .num p.createdAt)]

namespace App

/-- The saved project built by `handleSaveProject` (App.tsx lines 196-214)
from the current book, message list and market data; `now` models
`Date.now()`. -/
def newProject (book : EBook) (messages : List Message)
    (marketData : Option MarketData) (now : Int) : SavedProject :=
  { id := toString now, name := book.title, book := book,
    messages := messages, marketData := marketData, createdAt := now }

/-- Model of `handleSaveProject`: when a book exists, the new project is
prepended to the saved project list and a confirmation message is appended
to the chat; otherwise nothing happens.  Returns the new saved project list
and the new message list. -/
def handleSaveProject (generatedBook : Option EBook) (messages : List Message)
    (marketData : Option MarketData) (now : Int)
    (savedProjects : List SavedProject) : List SavedProject × List Message :=
  match generatedBook with
  | none => (savedProjects, messages)
  | some book =>
    (newProject book messages marketData now :: savedProjects,
     messages ++ [{ id := "save-msg-" ++ toString now, text := "**Project Saved!**",
                    sender := Sender.ai, timestamp := now }])

/-- Model of the `onLoadProject` handler of the project library (App.tsx
line 441): the generated book becomes the project book and the chat
messages become the project messages. -/
def onLoadProject (p : SavedProject) : Option EBook × List Message :=
  (some p.book, p.messages)

/-- The `onChapterEdited` callback passed to `GeminiService.sendMessage`
by `handleSendMessage` (App.tsx lines 115-123): a null book stays null;
otherwise the chapter list is copied and, when the index denotes an
existing chapter (JavaScript indexing yields a truthy element exactly for
integers in bounds; chapter objects are always truthy), only the content
field of that chapter is replaced. -/
def onChapterEditedApp (prev : Option EBook) (chapterIndex : Int)
    (newContent : String) : Option EBook :=
  match prev with
  | none => none
  | some book =>
    if chapterIndex < 0 then some book
    else
      match book.chapters[chapterIndex.toNat]? with
      | none => some book
      | some ch =>
        some { book with
               chapters := book.chapters.set chapterIndex.toNat
                 { ch with content := newContent } }

end App

namespace ApiKeyModal

/-- Observable outcome of `validateAndSave` (components/ApiKeyModal.tsx
lines 26-77): the status the component settles on, the error message shown,
and the key passed to `onSave` (none when `onSave` is not called). -/
structure ValOutcome where
  status : String
  errorMessage : String
  savedKey : Option String
deriving DecidableEq

/-- Model of `validateAndSave` over the outcome of the lightweight
validation call (`.ok` when `ai.models.generateContent` resolves, `.error
e` when it rejects with an error whose `toString` text is `e`).  A blank
key is rejected up front.  A successful call, or a failure whose lowercased
text contains 429 or quota, accepts the trimmed key; every other failure
sets the error status with a message chosen by further substring checks and
never calls `onSave`. -/
def validateAndSave (key : String) (callOutcome : Except String Unit) : ValOutcome :=
  let trimmedKey := jsTrim key
  if trimmedKey == "" then
    { status := "error", errorMessage := "Please enter an API key.", savedKey := none }
  else
    match callOutcome with
    | .ok _ => { status := "valid", errorMessage := "", savedKey := some trimmedKey }
    | .error e =>
      let errString := jsToLowerCase e
      if jsIncludes errString "429" || jsIncludes errString "quota" then
        { status := "valid", errorMessage := "", savedKey := some trimmedKey }
      else if jsIncludes errString "403" || jsIncludes errString "permission denied" then
        { status := "error",
          errorMessage := "Key rejected. This is usually a billing/project setting.",
          savedKey := none }
      else if jsIncludes errString "400" || jsIncludes errString "invalid argument" then
        { status := "error", errorMessage := "Invalid Key Format.", savedKey := none }
      else
        { status := "error", errorMessage := "Connection failed. Please check internet.",
          savedKey := none }

end ApiKeyModal

namespace EBookReader

/-- Model of the `nextChapter` click handler (components/EBookReader.tsx):
advance unless the current chapter is already the last one. -/
def nextChapter (numChapters : Nat) (c : Int) : Int :=
  if c < (numChapters : Int) - 1 then c + 1 else c

/-- Model of the `prevChapter` click handler: go back unless the current
chapter is already the cover (-1). -/
def prevChapter (c : Int) : Int :=
  if c > -1 then c - 1 else c

/-- A navigation action of the reader footer. -/
inductive NavOp where
  | next : NavOp
  | prev : NavOp
deriving DecidableEq

/-- Applies one navigation action to the current chapter index. -/
def applyNav (numChapters : Nat) (c : Int) : NavOp → Int
  | .next => nextChapter numChapters c
  | .prev => prevChapter c

/-- The current chapter index reached from the initial state
(`useState(-1)`, the cover) by a sequence of navigation actions. -/
def runReader (numChapters : Nat) (ops : List NavOp) : Int :=
  ops.foldl (applyNav numChapters) (-1)

end EBookReader

/-- Concrete oracle: every attempt rejects with an error whose text
contains both 403 and 429. -/
def env403and429 : Nat → GeminiService.AttemptOutcome :=
  fun _ => .throwErr "403 and 429"

/-- Concrete oracle: every attempt resolves with a malformed function
call. -/
def envMalformed : Nat → GeminiService.AttemptOutcome :=
  fun _ => .response (some "MALFORMED_FUNCTION_CALL") "" 1

/-- Concrete oracle: the first attempt resolves malformed (a generic,
loop-continuing failure), every later one rejects with an authentication
error. -/
def envAuthAfterMalformed : Nat → GeminiService.AttemptOutcome :=
  fun k =>
    if k = 0 then .response (some "MALFORMED_FUNCTION_CALL") "" 1
    else .throwErr "403 forbidden"

/-- Concrete content oracle: every call fails with a non-rate-limit
error. -/
def genFailOther : Nat → GeminiService.GcOutcome := fun _ => .err none "boom"

/-- Concrete content oracle: every call fails rate limited. -/
def genAllRl : Nat → GeminiService.GcOutcome := fun _ => .err (some 429) "rate"

/-- Concrete chapter argument used in witnesses. -/
def chapterW : ArgChapter := ⟨"Ch1", "the outline", "castle"⟩

/-- Concrete background oracle: for every chapter the first call is rate
limited and the second succeeds. -/
def genBgW : Nat → Nat → GeminiService.GcOutcome :=
  fun _ k => if k = 0 then .err (some 429) "rate" else .ok (some "text")

/-- Concrete background oracle: every call succeeds at once. -/
def genBgOk : Nat → Nat → GeminiService.GcOutcome := fun _ _ => .ok (some "text")

/-- Concrete `create_ebook` arguments with one chapter carrying an
outline. -/
def argsW : CreateEbookArgs :=
  ⟨"T", "A", "D", "fantasy", "novel", [⟨"Ch1", "The hero begins", "castle"⟩]⟩

/-- Concrete stand-in for the `Date` string serialization. -/
def isoW : Int → String := fun m => toString m

/-- Concrete book used in witnesses. -/
def bookW : EBook :=
  ⟨"T", "A", "D", "fantasy", "novel", [⟨"c1", "x", "k1", none⟩, ⟨"c2", "y", "k2", none⟩]⟩

/-- Concrete chat message used in witnesses (a `Date` timestamp). -/
def msgW : Message := ⟨"m1", "hello", Sender.user, 0⟩

/-- Concrete saved project used in the persistence counterexample. -/
def projectW : SavedProject := ⟨"1", "T", bookW, [msgW], none, 1⟩

namespace GeminiService

/-- Every run of the retry loop performs at most `fuel` remote sends. -/
theorem countSends_sendLoop_le (env : Nat → AttemptOutcome) (msg : String) :
    ∀ fuel attempts lastError,
      countSends (sendLoop env msg fuel attempts lastError).1 ≤ fuel := by
  intro fuel
  induction fuel with
  | zero => intro a le; simp [sendLoop, countSends]
  | succ n ih =>
    intro a le
    simp only [sendLoop]
    cases h : attemptTry (env a) with
    | ok t => simp [countSends]
    | error e =>
      by_cases h1 : (jsIncludes (jsToLowerCase e) "429" || jsIncludes (jsToLowerCase e) "503") = true
      · simp only [h1, if_true, countSends]
        exact Nat.succ_le_succ (ih (a + 1) e)
      · simp only [eq_false_of_ne_true h1, if_false]
        by_cases h2 : (jsIncludes (jsToLowerCase e) "403" || jsIncludes (jsToLowerCase e) "key not valid") = true
        · simp [h2, countSends]
        · simp only [eq_false_of_ne_true h2, if_false]
          by_cases h3 : a + 1 ≥ maxAttempts
          · simp [h3, countSends]
          · simp only [h3, if_false, countSends]
            exact Nat.succ_le_succ (ih (a + 1) e)

/-- Every run of the content generation loop performs at most `fuel`
remote calls. -/
theorem countGcCalls_gcLoop_le (gen : Nat → GcOutcome) (ch : ArgChapter) :
    ∀ fuel attempts, countGcCalls (gcLoop gen ch fuel attempts).1 ≤ fuel := by
  intro fuel
  induction fuel with
  | zero => intro a; simp [gcLoop, countGcCalls]
  | succ n ih =>
    intro a
    simp only [gcLoop]
    cases h : gen a with
    | ok t => simp [countGcCalls]
    | err status etext =>
      by_cases h1 : gcIsRateLimit status etext = true
      · simp only [h1, if_true, countGcCalls]
        exact Nat.succ_le_succ (ih (a + 1))
      · simp [eq_false_of_ne_true h1, countGcCalls]

/-- Every run of the content generation loop performs at least one remote
call when the loop guard holds. -/
theorem countGcCalls_gcLoop_pos (gen : Nat → GcOutcome) (ch : ArgChapter) :
    ∀ fuel attempts, 1 ≤ countGcCalls (gcLoop gen ch (fuel + 1) attempts).1 := by
  intro fuel a
  simp only [gcLoop]
  cases h : gen a with
  | ok t => simp [countGcCalls]
  | err status etext =>
    by_cases h1 : gcIsRateLimit status etext = true
    · simp [h1, countGcCalls]
    · simp [eq_false_of_ne_true h1, countGcCalls]

end GeminiService

/-- Claim C1: for every call to `GeminiService.sendMessage` the number of
attempts to send the user message to the remote model never exceeds the
configured maximum of 3, on every error path; likewise
`GeminiService.generateChapterContent` issues at most 3 generation
requests per chapter. -/
theorem claim_C1_retry_cap :
    (∀ env message,
      GeminiService.countSends (GeminiService.sendMessage env message).1 ≤ 3) ∧
    (∀ gen chapter,
      GeminiService.countGcCalls
        (GeminiService.generateChapterContent gen chapter).1 ≤ 3) :=
  ⟨fun env message => GeminiService.countSends_sendLoop_le env message 3 0 "",
   fun gen chapter => GeminiService.countGcCalls_gcLoop_le gen chapter 3 0⟩

/-- Claim C2, counterexample: an attempt failing with the error text
`403 and 429` contains 403, yet `sendMessage` does not rethrow it: the
429/503 branch is tested first, so the loop waits, increments the counter
and retries until all three attempts are spent and the fallback is
returned. -/
theorem claim_C2_counterexample :
    GeminiService.countSends (GeminiService.sendMessage env403and429 "hello").1 = 3 ∧
    (GeminiService.sendMessage env403and429 "hello").2 =
      .fallback "403 and 429" := by
  constructor <;> rfl

/-- Claim C2, amended: if an attempt of `GeminiService.sendMessage` fails
with an error whose lowercased text contains 403 or `key not valid` and
contains neither 429 nor 503, the error is rethrown immediately: the trace
ends at that send, with no delay and no further attempt, regardless of how
many attempts remain.  The earlier attempts may have failed with any error
that keeps the loop running: rate-limit class (429/503, backoff retry) or
generic class (neither rate-limit nor authentication, 1500 ms retry). -/
theorem claim_C2_auth_short_circuit (env : Nat → GeminiService.AttemptOutcome)
    (message : String) (k : Nat) (e : String)
    (hk : k < 3)
    (hpre : ∀ j, j < k → ∃ ej, GeminiService.attemptTry (env j) = .error ej ∧
      ((jsIncludes (jsToLowerCase ej) "429" || jsIncludes (jsToLowerCase ej) "503") = true ∨
       (jsIncludes (jsToLowerCase ej) "403" || jsIncludes (jsToLowerCase ej) "key not valid") = false))
    (herr : GeminiService.attemptTry (env k) = .error e)
    (hnotrl : (jsIncludes (jsToLowerCase e) "429" || jsIncludes (jsToLowerCase e) "503") = false)
    (hauth : (jsIncludes (jsToLowerCase e) "403" || jsIncludes (jsToLowerCase e) "key not valid") = true) :
    (GeminiService.sendMessage env message).2 = .thrown e ∧
    GeminiService.countSends (GeminiService.sendMessage env message).1 = k + 1 ∧
    (GeminiService.sendMessage env message).1.getLast? =
      some (.send (GeminiService.attemptMessage message k)) := by
  interval_cases k
  · refine ⟨?_, ?_, ?_⟩ <;>
      simp [GeminiService.sendMessage, GeminiService.sendLoop, herr, hnotrl, hauth,
        GeminiService.countSends]
  · obtain ⟨e0, he0, hc0⟩ := hpre 0 (by norm_num)
    by_cases hrl0 : (jsIncludes (jsToLowerCase e0) "429" || jsIncludes (jsToLowerCase e0) "503") = true
    · refine ⟨?_, ?_, ?_⟩ <;>
        simp [GeminiService.sendMessage, GeminiService.sendLoop, he0, hrl0, herr,
          hnotrl, hauth, GeminiService.countSends]
    · have hg0 := hc0.resolve_left hrl0
      refine ⟨?_, ?_, ?_⟩ <;>
        simp [GeminiService.sendMessage, GeminiService.sendLoop, he0,
          eq_false_of_ne_true hrl0, hg0, herr, hnotrl, hauth,
          GeminiService.maxAttempts, GeminiService.countSends]
  · obtain ⟨e0, he0, hc0⟩ := hpre 0 (by norm_num)
    obtain ⟨e1, he1, hc1⟩ := hpre 1 (by norm_num)
    by_cases hrl0 : (jsIncludes (jsToLowerCase e0) "429" || jsIncludes (jsToLowerCase e0) "503") = true
    · by_cases hrl1 : (jsIncludes (jsToLowerCase e1) "429" || jsIncludes (jsToLowerCase e1) "503") = true
      · refine ⟨?_, ?_, ?_⟩ <;>
          simp [GeminiService.sendMessage, GeminiService.sendLoop, he0, hrl0, he1,
            hrl1, herr, hnotrl, hauth, GeminiService.countSends]
      · have hg1 := hc1.resolve_left hrl1
        refine ⟨?_, ?_, ?_⟩ <;>
          simp [GeminiService.sendMessage, GeminiService.sendLoop, he0, hrl0, he1,
            eq_false_of_ne_true hrl1, hg1, herr, hnotrl, hauth,
            GeminiService.maxAttempts, GeminiService.countSends]
    · have hg0 := hc0.resolve_left hrl0
      by_cases hrl1 : (jsIncludes (jsToLowerCase e1) "429" || jsIncludes (jsToLowerCase e1) "503") = true
      · refine ⟨?_, ?_, ?_⟩ <;>
          simp [GeminiService.sendMessage, GeminiService.sendLoop, he0,
            eq_false_of_ne_true hrl0, hg0, he1, hrl1, herr, hnotrl, hauth,
            GeminiService.maxAttempts, GeminiService.countSends]
      · have hg1 := hc1.resolve_left hrl1
        refine ⟨?_, ?_, ?_⟩ <;>
          simp [GeminiService.sendMessage, GeminiService.sendLoop, he0,
            eq_false_of_ne_true hrl0, hg0, he1, eq_false_of_ne_true hrl1, hg1,
            herr, hnotrl, hauth, GeminiService.maxAttempts, GeminiService.countSends]

/-- Claim C2, witness: with the first attempt malformed (a generic failure
that continues the loop via the 1500 ms path) and the second failing with
a 403 error, the error is rethrown after exactly two sends and the trace
ends at the second send. -/
theorem claim_C2_witness :
    (GeminiService.sendMessage envAuthAfterMalformed "hi").2 = .thrown "403 forbidden" ∧
    GeminiService.countSends (GeminiService.sendMessage envAuthAfterMalformed "hi").1 = 2 ∧
    (GeminiService.sendMessage envAuthAfterMalformed "hi").1.getLast? =
      some (.send (GeminiService.attemptMessage "hi" 1)) :=
  claim_C2_auth_short_circuit envAuthAfterMalformed "hi" 1 "403 forbidden" (by decide)
    (fun j hj => by
      have hj0 : j = 0 := Nat.lt_one_iff.mp hj
      subst hj0
      exact ⟨"MALFORMED_JSON", rfl, Or.inr (by decide)⟩)
    rfl (by decide) (by decide)

/-- Claim C3: `GeminiService.generateChapterContent` never throws (its
model is a total function into strings); a non-rate-limit failure returns
the failure placeholder carrying the chapter outline, and three
rate-limited attempts return the after-retries placeholder carrying the
chapter outline. -/
theorem claim_C3_placeholder (gen : Nat → GeminiService.GcOutcome) (chapter : ArgChapter) :
    (∀ k, k < 3 →
      (∀ j, j < k → ∃ st et, gen j = .err st et ∧
        GeminiService.gcIsRateLimit st et = true) →
      (∃ st et, gen k = .err st et ∧ GeminiService.gcIsRateLimit st et = false) →
      (GeminiService.generateChapterContent gen chapter).2 =
        "(Content generation failed. Outline: " ++ chapter.outline ++ ")") ∧
    ((∀ k, k < 3 → ∃ st et, gen k = .err st et ∧
        GeminiService.gcIsRateLimit st et = true) →
      (GeminiService.generateChapterContent gen chapter).2 =
        "(Content generation failed after retries. Outline: " ++ chapter.outline ++ ")") := by
  constructor
  · intro k hk hpre hbad
    obtain ⟨st, et, hgen, hrl⟩ := hbad
    interval_cases k
    · simp [GeminiService.generateChapterContent, GeminiService.gcLoop, hgen, hrl]
    · obtain ⟨st0, et0, hg0, hr0⟩ := hpre 0 (by norm_num)
      simp [GeminiService.generateChapterContent, GeminiService.gcLoop, hg0, hr0, hgen, hrl]
    · obtain ⟨st0, et0, hg0, hr0⟩ := hpre 0 (by norm_num)
      obtain ⟨st1, et1, hg1, hr1⟩ := hpre 1 (by norm_num)
      simp [GeminiService.generateChapterContent, GeminiService.gcLoop, hg0, hr0, hg1,
        hr1, hgen, hrl]
  · intro hall
    obtain ⟨st0, et0, hg0, hr0⟩ := hall 0 (by norm_num)
    obtain ⟨st1, et1, hg1, hr1⟩ := hall 1 (by norm_num)
    obtain ⟨st2, et2, hg2, hr2⟩ := hall 2 (by norm_num)
    simp [GeminiService.generateChapterContent, GeminiService.gcLoop, hg0, hr0, hg1,
      hr1, hg2, hr2]

/-- Claim C3, witness: a non-rate-limit failure on the first call yields
the failure placeholder, and three rate-limited calls yield the
after-retries placeholder, both carrying the chapter outline. -/
theorem claim_C3_witness :
    (GeminiService.generateChapterContent genFailOther chapterW).2 =
      "(Content generation failed. Outline: the outline)" ∧
    (GeminiService.generateChapterContent genAllRl chapterW).2 =
      "(Content generation failed after retries. Outline: the outline)" :=
  ⟨(claim_C3_placeholder genFailOther chapterW).1 0 (by decide)
      (fun j hj => absurd hj (Nat.not_lt_zero j)) ⟨none, "boom", rfl, by decide⟩,
   (claim_C3_placeholder genAllRl chapterW).2
      (fun k _ => ⟨some 429, "rate", rfl, by decide⟩)⟩

/-- Every iteration of the retry loop begins with a remote send of the
message for the current attempt counter. -/
theorem sendLoop_trace_head (env : Nat → GeminiService.AttemptOutcome)
    (msg : String) (fuel a : Nat) (le : String) :
    ∃ rest r, GeminiService.sendLoop env msg (fuel + 1) a le =
      (.send (GeminiService.attemptMessage msg a) :: rest, r) := by
  simp only [GeminiService.sendLoop]
  cases h : GeminiService.attemptTry (env a) with
  | ok t => exact ⟨[], .ok t, rfl⟩
  | error e =>
    by_cases h1 : (jsIncludes (jsToLowerCase e) "429" || jsIncludes (jsToLowerCase e) "503") = true
    · simp only [h1, if_true]
      exact ⟨_, _, rfl⟩
    · simp only [eq_false_of_ne_true h1, if_false]
      by_cases h2 : (jsIncludes (jsToLowerCase e) "403" || jsIncludes (jsToLowerCase e) "key not valid") = true
      · simp only [h2, if_true]
        exact ⟨_, _, rfl⟩
      · simp only [eq_false_of_ne_true h2, if_false]
        by_cases h3 : a + 1 ≥ GeminiService.maxAttempts
        · simp only [h3, if_true]
          exact ⟨_, _, rfl⟩
        · simp only [h3, if_false]
          exact ⟨_, _, rfl⟩

/-- Claim C8, counterexample: when every response is a malformed function
call, the first malformed response is followed by two further attempts,
not a single retry: three sends occur before the fallback message is
returned. -/
theorem claim_C8_counterexample :
    GeminiService.countSends (GeminiService.sendMessage envMalformed "hello").1 = 3 ∧
    (GeminiService.sendMessage envMalformed "hello").2 =
      .fallback "MALFORMED_JSON" := by
  constructor <;> rfl

/-- One step of the retry loop on a retryable (neither rate-limit nor
authentication class) error with attempts remaining: the loop records the
send and a 1500 ms delay, then continues with the incremented counter. -/
theorem sendLoop_retryable_step (env : Nat → GeminiService.AttemptOutcome)
    (msg : String) (fuel a : Nat) (le e : String)
    (h : GeminiService.attemptTry (env a) = .error e)
    (hrl : (jsIncludes (jsToLowerCase e) "429" || jsIncludes (jsToLowerCase e) "503") = false)
    (hauth : (jsIncludes (jsToLowerCase e) "403" || jsIncludes (jsToLowerCase e) "key not valid") = false)
    (hlt : a + 1 < GeminiService.maxAttempts) :
    GeminiService.sendLoop env msg (fuel + 1) a le =
      (.send (GeminiService.attemptMessage msg a) :: .wait 1500 ::
        (GeminiService.sendLoop env msg fuel (a + 1) e).1,
       (GeminiService.sendLoop env msg fuel (a + 1) e).2) := by
  have hge : ¬ (a + 1 ≥ GeminiService.maxAttempts) := Nat.not_le.mpr hlt
  simp only [GeminiService.sendLoop, h, hrl, hauth, hge, if_false, Bool.false_eq_true]

/-- Claim C8, amended: a response classified as malformed output or as an
empty response triggers a retry after a 1500 ms delay in which the resent
message is the original message with the rephrased instruction appended;
within the overall cap of three attempts a second such retry (with the
same rephrased message) can follow, so the retry is not always single. -/
theorem claim_C8_rephrased_retry (env : Nat → GeminiService.AttemptOutcome)
    (message : String)
    (h : GeminiService.attemptTry (env 0) = .error "MALFORMED_JSON" ∨
         GeminiService.attemptTry (env 0) = .error "EMPTY_RESPONSE") :
    (GeminiService.sendMessage env message).1.take 3 =
      [.send message, .wait 1500,
       .send (message ++ GeminiService.retrySuffix)] ∧
    GeminiService.countSends (GeminiService.sendMessage env message).1 ≤ 3 := by
  refine ⟨?_, GeminiService.countSends_sendLoop_le env message 3 0 ""⟩
  rcases h with h | h
  · obtain ⟨rest, r, hrec⟩ := sendLoop_trace_head env message 1 1 "MALFORMED_JSON"
    have hstep := sendLoop_retryable_step env message 2 0 "" "MALFORMED_JSON" h
      (by decide) (by decide) (by decide)
    show (GeminiService.sendLoop env message 3 0 "").1.take 3 = _
    rw [hstep, hrec]
    simp [GeminiService.attemptMessage]
  · obtain ⟨rest, r, hrec⟩ := sendLoop_trace_head env message 1 1 "EMPTY_RESPONSE"
    have hstep := sendLoop_retryable_step env message 2 0 "" "EMPTY_RESPONSE" h
      (by decide) (by decide) (by decide)
    show (GeminiService.sendLoop env message 3 0 "").1.take 3 = _
    rw [hstep, hrec]
    simp [GeminiService.attemptMessage]

/-- Claim C8, witness: with every response malformed, the first three
trace events are the original send, the 1500 ms delay and the rephrased
resend. -/
theorem claim_C8_witness :
    (GeminiService.sendMessage envMalformed "hi").1.take 3 =
      [.send "hi", .wait 1500,
       .send ("hi" ++ GeminiService.retrySuffix)] ∧
    GeminiService.countSends (GeminiService.sendMessage envMalformed "hi").1 ≤ 3 :=
  claim_C8_rephrased_retry envMalformed "hi" (Or.inl rfl)

/-- Claim C4: for every non-blank key, a successful validation call and a
failing validation call whose lowercased error text contains 429 or quota
both accept the credential (status valid, `onSave` called with the trimmed
key); every other failure sets the error status and never calls
`onSave`. -/
theorem claim_C4_validation (key : String) (hkey : jsTrim key ≠ "") :
    ApiKeyModal.validateAndSave key (.ok ()) =
      ⟨"valid", "", some (jsTrim key)⟩ ∧
    (∀ e, (jsIncludes (jsToLowerCase e) "429" || jsIncludes (jsToLowerCase e) "quota") = true →
      ApiKeyModal.validateAndSave key (.error e) =
        ⟨"valid", "", some (jsTrim key)⟩) ∧
    (∀ e, (jsIncludes (jsToLowerCase e) "429" || jsIncludes (jsToLowerCase e) "quota") = false →
      (ApiKeyModal.validateAndSave key (.error e)).status = "error" ∧
      (ApiKeyModal.validateAndSave key (.error e)).savedKey = none) := by
  have hb : (jsTrim key == "") = false := beq_eq_false_iff_ne.mpr hkey
  refine ⟨?_, ?_, ?_⟩
  · simp [ApiKeyModal.validateAndSave, hb]
  · intro e he
    simp [ApiKeyModal.validateAndSave, hb, he]
  · intro e he
    simp only [ApiKeyModal.validateAndSave, hb, Bool.false_eq_true, if_false, he]
    split_ifs <;> simp

/-- Claim C4, witness: the key abc is accepted on a successful call and on
a quota failure, and rejected with the error status on a network
failure. -/
theorem claim_C4_witness :
    ApiKeyModal.validateAndSave " abc " (.ok ()) = ⟨"valid", "", some "abc"⟩ ∧
    ApiKeyModal.validateAndSave " abc " (.error "Error: QUOTA exceeded") =
      ⟨"valid", "", some "abc"⟩ ∧
    (ApiKeyModal.validateAndSave " abc " (.error "fetch failed")).status = "error" ∧
    (ApiKeyModal.validateAndSave " abc " (.error "fetch failed")).savedKey = none := by
  have h := claim_C4_validation " abc " (by decide)
  have htrim : jsTrim " abc " = "abc" := by decide
  exact ⟨htrim ▸ h.1, htrim ▸ h.2.1 "Error: QUOTA exceeded" (by decide),
    (h.2.2 "fetch failed" (by decide)).1, (h.2.2 "fetch failed" (by decide)).2⟩

/-- Claim C6, counterexample: the chapter records of the book passed to
`onEBookGenerated` carry no outline field at all, even though the model
arguments provided one: the `initialChapters` map keeps only the title,
the image keyword and an empty content. -/
theorem claim_C6_counterexample :
    GeminiService.bookChapterField (GeminiService.createEbookBook argsW) 0 "outline" = none ∧
    argsW.chapters.map ArgChapter.outline = ["The hero begins"] := by
  constructor <;> rfl

/-- Claim C6, amended: each chapter record of the book passed to
`onEBookGenerated` carries the title and the image keyword from the model
arguments for that chapter together with an empty content field, with the
chapter order and count preserved and the book metadata intact; the
outline is not carried on the chapter record (the data model chapter
record has no outline field, and since `bookData` aliases the arguments
object the stripping destroys the original outlines altogether). -/
theorem claim_C6_chapter_fields (args : CreateEbookArgs) (i : Nat)
    (h : i < args.chapters.length) :
    objLookup "chapters" (GeminiService.createEbookBook args) =
      some (.arr (args.chapters.map GeminiService.initialChapter)) ∧
    (args.chapters.map GeminiService.initialChapter).length = args.chapters.length ∧
    GeminiService.bookChapterField (GeminiService.createEbookBook args) i "title" =
      some (.str (args.chapters.get ⟨i, h⟩).title) ∧
    GeminiService.bookChapterField (GeminiService.createEbookBook args) i "imageKeyword" =
      some (.str (args.chapters.get ⟨i, h⟩).imageKeyword) ∧
    GeminiService.bookChapterField (GeminiService.createEbookBook args) i "content" =
      some (.str "") ∧
    GeminiService.bookChapterField (GeminiService.createEbookBook args) i "outline" = none ∧
    objLookup "title" (GeminiService.createEbookBook args) = some (.str args.title) ∧
    objLookup "author" (GeminiService.createEbookBook args) = some (.str args.author) ∧
    objLookup "description" (GeminiService.createEbookBook args) = some (.str args.description) ∧
    objLookup "theme" (GeminiService.createEbookBook args) = some (.str args.theme) ∧
    objLookup "format" (GeminiService.createEbookBook args) = some (.str args.format) := by
  have hget : (args.chapters.map GeminiService.initialChapter)[i]? =
      some (GeminiService.initialChapter (args.chapters.get ⟨i, h⟩)) := by
    simp [List.getElem?_map, List.getElem?_eq_getElem h]
  refine ⟨?_, by simp, ?_, ?_, ?_, ?_, ?_, ?_, ?_, ?_, ?_⟩ <;>
    simp +decide [GeminiService.createEbookBook, GeminiService.bookChapterField,
      GeminiService.initialChapter, objLookup, arrGet, hget, List.find?]

/-- Claim C6, witness: the single chapter of the concrete arguments keeps
its title, image keyword and empty content while losing its outline. -/
theorem claim_C6_witness :
    GeminiService.bookChapterField (GeminiService.createEbookBook argsW) 0 "title" =
      some (.str "Ch1") ∧
    GeminiService.bookChapterField (GeminiService.createEbookBook argsW) 0 "imageKeyword" =
      some (.str "castle") ∧
    GeminiService.bookChapterField (GeminiService.createEbookBook argsW) 0 "content" =
      some (.str "") :=
  have h := claim_C6_chapter_fields argsW 0 (by decide)
  ⟨h.2.2.1, h.2.2.2.1, h.2.2.2.2.1⟩

/-- Claim C9: the chapter-edit callback updates only the content of the
addressed chapter: a null book stays null; for an in-bounds index the book
keeps all metadata and every chapter except the addressed one, whose
title, image keyword and image URL survive with only the content replaced;
for an out-of-bounds index the book is unchanged. -/
theorem claim_C9_frame :
    (∀ (i : Int) (c : String), App.onChapterEditedApp none i c = none) ∧
    (∀ (book : EBook) (i : Int) (c : String) (ch : Chapter),
      0 ≤ i → book.chapters[i.toNat]? = some ch →
      App.onChapterEditedApp (some book) i c =
        some { book with
               chapters := book.chapters.set i.toNat { ch with content := c } } ∧
      (book.chapters.set i.toNat { ch with content := c }).length =
        book.chapters.length ∧
      (book.chapters.set i.toNat { ch with content := c })[i.toNat]? =
        some { ch with content := c } ∧
      (∀ j, j ≠ i.toNat →
        (book.chapters.set i.toNat { ch with content := c })[j]? =
          book.chapters[j]?)) ∧
    (∀ (book : EBook) (i : Int) (c : String),
      (i < 0 ∨ book.chapters[i.toNat]? = none) →
      App.onChapterEditedApp (some book) i c = some book) := by
  refine ⟨?_, ?_, ?_⟩
  · intro i c
    simp [App.onChapterEditedApp]
  · intro book i c ch h0 hch
    have hlt : i.toNat < book.chapters.length := by
      rcases List.getElem?_eq_some.mp hch with ⟨hl, _⟩
      exact hl
    refine ⟨?_, by simp, ?_, ?_⟩
    · simp only [App.onChapterEditedApp]
      rw [if_neg (by omega), hch]
    · simp [List.getElem?_set_self, hlt]
    · intro j hj
      simp [List.getElem?_set_ne (fun hji => hj hji.symm)]
  · intro book i c h
    by_cases hi : i < 0
    · simp [App.onChapterEditedApp, hi]
    · rcases h with h | h
      · exact absurd h hi
      · simp [App.onChapterEditedApp, hi, h]

/-- Claim C9, witness: editing chapter 1 of a concrete two-chapter book
replaces only its content, and an out-of-bounds edit leaves the book
unchanged. -/
theorem claim_C9_witness :
    App.onChapterEditedApp (some bookW) 1 "NEW" =
      some { bookW with
             chapters := bookW.chapters.set 1
               { bookW.chapters.get ⟨1, by decide⟩ with content := "NEW" } } ∧
    App.onChapterEditedApp (some bookW) 5 "NEW" = some bookW ∧
    App.onChapterEditedApp none 1 "NEW" = none :=
  ⟨(claim_C9_frame.2.1 bookW 1 "NEW" ⟨"c2", "y", "k2", none⟩ (by decide) (by decide)).1,
   claim_C9_frame.2.2 bookW 5 "NEW" (Or.inr (by decide)),
   claim_C9_frame.1 1 "NEW"⟩

/-- Every navigation step keeps the chapter index within the cover-to-last
range. -/
theorem runReader_inv (n : Nat) :
    ∀ (ops : List EBookReader.NavOp) (c : Int),
      -1 ≤ c → c ≤ (n : Int) - 1 →
      -1 ≤ ops.foldl (EBookReader.applyNav n) c ∧
        ops.foldl (EBookReader.applyNav n) c ≤ (n : Int) - 1 := by
  intro ops
  induction ops with
  | nil => intro c h1 h2; simpa using ⟨h1, h2⟩
  | cons op rest ih =>
    intro c h1 h2
    have hstep : -1 ≤ EBookReader.applyNav n c op ∧
        EBookReader.applyNav n c op ≤ (n : Int) - 1 := by
      cases op <;>
        simp only [EBookReader.applyNav, EBookReader.nextChapter,
          EBookReader.prevChapter] <;>
        split_ifs <;> omega
    simpa only [List.foldl_cons] using ih (EBookReader.applyNav n c op) hstep.1 hstep.2

/-- Claim C10: the reader chapter index starts at the cover (-1) and every
sequence of next and previous navigation steps keeps it between -1 and the
last chapter index; stepping forward at the last chapter and stepping back
at the cover are no-ops. -/
theorem claim_C10_reader_bounds :
    (∀ (numChapters : Nat) (ops : List EBookReader.NavOp),
      -1 ≤ EBookReader.runReader numChapters ops ∧
      EBookReader.runReader numChapters ops ≤ (numChapters : Int) - 1) ∧
    (∀ numChapters : Nat,
      EBookReader.nextChapter numChapters ((numChapters : Int) - 1) =
        (numChapters : Int) - 1) ∧
    EBookReader.prevChapter (-1) = -1 := by
  refine ⟨?_, ?_, ?_⟩
  · intro n ops
    exact runReader_inv n ops (-1) le_rfl (by omega)
  · intro n
    simp [EBookReader.nextChapter]
  · simp [EBookReader.prevChapter]


namespace GeminiService

/-- The background loop on a nonempty chapter list is the segment of its
head followed by the loop on its tail. -/
theorem bgTaskFrom_cons (gen : Nat → Nat → GcOutcome) (j : Nat)
    (c : ArgChapter) (rest : List ArgChapter) :
    bgTaskFrom gen j (c :: rest) =
      chapterSegment gen j c ++ bgTaskFrom gen (j + 1) rest := by
  simp [bgTaskFrom, chapterSegment]

/-- The remote-call count for a chapter distributes over trace
concatenation. -/
theorem countRemoteCalls_append (i : Nat) (l1 l2 : List BgEv) :
    countRemoteCalls i (l1 ++ l2) = countRemoteCalls i l1 + countRemoteCalls i l2 := by
  induction l1 with
  | nil => simp [countRemoteCalls]
  | cons e rest ih =>
    cases e <;> simp [countRemoteCalls, ih] <;> omega

/-- Tagged content generation events contribute their call count to their
own chapter and nothing to any other chapter. -/
theorem countRemoteCalls_tag (i j : Nat) (tr : List GcEv) :
    countRemoteCalls i (tr.map (tagGcEv j)) =
      if j = i then countGcCalls tr else 0 := by
  induction tr with
  | nil => simp [countRemoteCalls, countGcCalls]
  | cons e rest ih =>
    cases e <;> simp [tagGcEv, countRemoteCalls, countGcCalls, ih] <;>
      split_ifs <;> omega

/-- The remote-call count of a chapter segment. -/
theorem countRemoteCalls_segment (gen : Nat → Nat → GcOutcome) (i j : Nat)
    (ch : ArgChapter) :
    countRemoteCalls i (chapterSegment gen j ch) =
      if j = i then
        countGcCalls ((generateChapterContent (gen i) (strippedChapter ch)).1)
      else 0 := by
  rcases eq_or_ne j i with h | h
  · subst h
    by_cases hj : j > 0 <;>
      simp [chapterSegment, countRemoteCalls_append, countRemoteCalls_tag,
        countRemoteCalls, hj]
  · by_cases hj : j > 0 <;>
      simp [chapterSegment, countRemoteCalls_append, countRemoteCalls_tag,
        countRemoteCalls, hj, h]

/-- Chapters processed from a start index beyond `i` never touch the
remote-call count of chapter `i`. -/
theorem countRemoteCalls_bgTaskFrom_zero (gen : Nat → Nat → GcOutcome) (i : Nat) :
    ∀ (chs : List ArgChapter) (j : Nat), i < j →
      countRemoteCalls i (bgTaskFrom gen j chs) = 0 := by
  intro chs
  induction chs with
  | nil => intro j _; simp [bgTaskFrom, countRemoteCalls]
  | cons ch rest ih =>
    intro j hij
    rw [bgTaskFrom_cons, countRemoteCalls_append, countRemoteCalls_segment,
      if_neg (Nat.ne_of_gt hij), ih (j + 1) (Nat.lt_succ_of_lt hij)]

/-- The remote-call count of chapter `j + k` over the background loop
started at index `j` equals the call count of the content generation of
the chapter stored at offset `k`. -/
theorem countRemoteCalls_bgTaskFrom (gen : Nat → Nat → GcOutcome) :
    ∀ (chs : List ArgChapter) (j k : Nat) (ch : ArgChapter), chs[k]? = some ch →
      countRemoteCalls (j + k) (bgTaskFrom gen j chs) =
        countGcCalls
          ((generateChapterContent (gen (j + k)) (strippedChapter ch)).1) := by
  intro chs
  induction chs with
  | nil => intro j k ch h; simp at h
  | cons c rest ih =>
    intro j k ch h
    cases k with
    | zero =>
      simp only [List.getElem?_cons_zero, Option.some.injEq] at h
      subst h
      rw [Nat.add_zero, bgTaskFrom_cons, countRemoteCalls_append,
        countRemoteCalls_segment, if_pos rfl,
        countRemoteCalls_bgTaskFrom_zero gen j rest (j + 1) (Nat.lt_succ_self j),
        Nat.add_zero]
    | succ k' =>
      simp only [List.getElem?_cons_succ] at h
      have hrec := ih (j + 1) k' ch h
      have hidx : j + 1 + k' = j + (k' + 1) := by omega
      rw [hidx] at hrec
      rw [bgTaskFrom_cons, countRemoteCalls_append, countRemoteCalls_segment,
        if_neg (by omega), hrec, Nat.zero_add]

/-- The edit deliveries distribute over trace concatenation. -/
theorem editedEvents_append (l1 l2 : List BgEv) :
    editedEvents (l1 ++ l2) = editedEvents l1 ++ editedEvents l2 := by
  induction l1 with
  | nil => simp [editedEvents]
  | cons e rest ih => cases e <;> simp [editedEvents, ih]

/-- Tagged content generation events contain no edit deliveries. -/
theorem editedEvents_tag (i : Nat) (tr : List GcEv) :
    editedEvents (tr.map (tagGcEv i)) = [] := by
  induction tr with
  | nil => simp [editedEvents]
  | cons e rest ih => cases e <;> simp [tagGcEv, editedEvents, ih]

/-- A chapter segment delivers exactly the generated content of its
chapter. -/
theorem editedEvents_segment (gen : Nat → Nat → GcOutcome) (j : Nat)
    (c : ArgChapter) :
    editedEvents (chapterSegment gen j c) =
      [(j, (generateChapterContent (gen j) (strippedChapter c)).2)] := by
  by_cases hj : j > 0 <;>
    simp [chapterSegment, hj, editedEvents_append, editedEvents_tag, editedEvents]

/-- The background loop started at index `j` is exactly the concatenation
of the chapter segments for indices `j, j + 1, ...` in order. -/
theorem bgTaskFrom_eq_flatten (gen : Nat → Nat → GcOutcome) :
    ∀ (chs : List ArgChapter) (j : Nat),
      bgTaskFrom gen j chs =
        (((List.range' j chs.length).zip chs).map
          (fun p => chapterSegment gen p.1 p.2)).flatten := by
  intro chs
  induction chs with
  | nil => intro j; simp [bgTaskFrom]
  | cons c rest ih =>
    intro j
    rw [List.length_cons, List.range'_succ j rest.length 1]
    simp only [List.zip_cons_cons, List.map_cons, List.flatten_cons]
    rw [← ih (j + 1), bgTaskFrom_cons]

/-- The edit deliveries of the background loop started at index `j` are
the generated contents of the chapters, paired with their indices, in
order. -/
theorem editedEvents_bgTaskFrom (gen : Nat → Nat → GcOutcome) :
    ∀ (chs : List ArgChapter) (j : Nat),
      editedEvents (bgTaskFrom gen j chs) =
        ((List.range' j chs.length).zip chs).map
          (fun p => (p.1, (generateChapterContent (gen p.1) (strippedChapter p.2)).2)) := by
  intro chs
  induction chs with
  | nil => intro j; simp [bgTaskFrom, editedEvents]
  | cons c rest ih =>
    intro j
    rw [List.length_cons, List.range'_succ j rest.length 1]
    simp only [List.zip_cons_cons, List.map_cons]
    rw [bgTaskFrom_cons, editedEvents_append, ih (j + 1), editedEvents_segment]
    rfl

end GeminiService

/-- Claim C7, counterexample: with the first remote call for the only
chapter rate limited and the second succeeding, the background task issues
two remote calls for that chapter, not one. -/
theorem claim_C7_counterexample :
    GeminiService.countRemoteCalls 0 (GeminiService.bgTask genBgW [chapterW]) = 2 := by
  rfl

/-- Claim C7, amended: the background task walks the chapter list
sequentially in index order; each chapter contributes one contiguous trace
segment consisting of the fixed 2000 ms inter-call delay (for every
chapter after the first), the remote calls of one content generation
invocation for that chapter (at least one call, and up to three when rate
limited), and the delivery of the generated content to `onChapterEdited`
with that chapter index, the deliveries occurring in index order.  Because
`bookData` aliases the arguments object, the chapter handed to the
generator is the stripped record whose outline is `undefined` (see
`strippedChapter`), not the original outline-bearing chapter. -/
theorem claim_C7_background_loop (gen : Nat → Nat → GeminiService.GcOutcome)
    (chapters : List ArgChapter) :
    GeminiService.bgTask gen chapters =
      (((List.range chapters.length).zip chapters).map
        (fun p => GeminiService.chapterSegment gen p.1 p.2)).flatten ∧
    GeminiService.editedEvents (GeminiService.bgTask gen chapters) =
      ((List.range chapters.length).zip chapters).map
        (fun p => (p.1, (GeminiService.generateChapterContent (gen p.1)
          (GeminiService.strippedChapter p.2)).2)) ∧
    (∀ i ch, chapters[i]? = some ch →
      GeminiService.countRemoteCalls i (GeminiService.bgTask gen chapters) =
        GeminiService.countGcCalls
          ((GeminiService.generateChapterContent (gen i)
            (GeminiService.strippedChapter ch)).1) ∧
      1 ≤ GeminiService.countRemoteCalls i (GeminiService.bgTask gen chapters) ∧
      GeminiService.countRemoteCalls i (GeminiService.bgTask gen chapters) ≤ 3) := by
  refine ⟨?_, ?_, ?_⟩
  · rw [List.range_eq_range' chapters.length]
    exact GeminiService.bgTaskFrom_eq_flatten gen chapters 0
  · rw [List.range_eq_range' chapters.length]
    exact GeminiService.editedEvents_bgTaskFrom gen chapters 0
  · intro i ch h
    have hcount := GeminiService.countRemoteCalls_bgTaskFrom gen chapters 0 i ch h
    simp only [Nat.zero_add] at hcount
    have hub := GeminiService.countGcCalls_gcLoop_le (gen i)
      (GeminiService.strippedChapter ch) 3 0
    have hlb := GeminiService.countGcCalls_gcLoop_pos (gen i)
      (GeminiService.strippedChapter ch) 2 0
    have hcount2 : GeminiService.countRemoteCalls i (GeminiService.bgTask gen chapters) =
        GeminiService.countGcCalls
          ((GeminiService.generateChapterContent (gen i)
            (GeminiService.strippedChapter ch)).1) := hcount
    exact ⟨hcount2, by rw [hcount2]; exact hlb, by rw [hcount2]; exact hub⟩

/-- Claim C7, witness: for a single chapter whose generation succeeds at
once, the background task issues exactly one remote call for chapter 0,
within the bounds. -/
theorem claim_C7_witness :
    GeminiService.countRemoteCalls 0 (GeminiService.bgTask genBgOk [chapterW]) =
      GeminiService.countGcCalls
        ((GeminiService.generateChapterContent (genBgOk 0)
          (GeminiService.strippedChapter chapterW)).1) ∧
    1 ≤ GeminiService.countRemoteCalls 0 (GeminiService.bgTask genBgOk [chapterW]) ∧
    GeminiService.countRemoteCalls 0 (GeminiService.bgTask genBgOk [chapterW]) ≤ 3 :=
  (claim_C7_background_loop genBgOk [chapterW]).2.2 0 chapterW rfl

/-- Mapping a JSON round-trip over encoded elements rewrites each element
by the pointwise round-trip equation. -/
theorem jsonRoundtripList_map {α : Type} (iso : Int → String) (f g : α → JsVal)
    (h : ∀ a, jsonRoundtrip iso (f a) = g a) :
    ∀ l : List α, jsonRoundtripList iso (l.map f) = l.map g := by
  intro l
  induction l with
  | nil => simp [jsonRoundtripList]
  | cons x xs ih => simp [jsonRoundtripList, h, ih]

/-- Encoded chapters contain no `Date`, so the round-trip fixes them. -/
theorem jsonRoundtrip_encodeChapter (iso : Int → String) (c : Chapter) :
    jsonRoundtrip iso (encodeChapter c) = encodeChapter c := by
  cases c with
  | mk t co k u =>
    cases u <;>
      simp [encodeChapter, jsonRoundtrip, jsonRoundtripFields]

/-- Encoded books contain no `Date`, so the round-trip fixes them. -/
theorem jsonRoundtrip_encodeBook (iso : Int → String) (b : EBook) :
    jsonRoundtrip iso (encodeBook b) = encodeBook b := by
  simp [encodeBook, jsonRoundtrip, jsonRoundtripFields,
    jsonRoundtripList_map iso encodeChapter encodeChapter
      (jsonRoundtrip_encodeChapter iso)]

/-- Encoded trend points contain no `Date`. -/
theorem jsonRoundtrip_encodeTrendPoint (iso : Int → String) (p : TrendPoint) :
    jsonRoundtrip iso (encodeTrendPoint p) = encodeTrendPoint p := by
  simp [encodeTrendPoint, jsonRoundtrip, jsonRoundtripFields]

/-- Encoded keyword entries contain no `Date`. -/
theorem jsonRoundtrip_encodeKeywordData (iso : Int → String) (k : KeywordData) :
    jsonRoundtrip iso (encodeKeywordData k) = encodeKeywordData k := by
  simp [encodeKeywordData, jsonRoundtrip, jsonRoundtripFields]

/-- Encoded competitor entries contain no `Date`. -/
theorem jsonRoundtrip_encodeCompetitorInsight (iso : Int → String)
    (c : CompetitorInsight) :
    jsonRoundtrip iso (encodeCompetitorInsight c) = encodeCompetitorInsight c := by
  simp [encodeCompetitorInsight, jsonRoundtrip, jsonRoundtripFields]

/-- Encoded market snapshots contain no `Date`, so the round-trip fixes
them. -/
theorem jsonRoundtrip_encodeMarketData (iso : Int → String) (d : MarketData) :
    jsonRoundtrip iso (encodeMarketData d) = encodeMarketData d := by
  simp [encodeMarketData, jsonRoundtrip, jsonRoundtripFields,
    jsonRoundtripList_map iso encodeTrendPoint encodeTrendPoint
      (jsonRoundtrip_encodeTrendPoint iso),
    jsonRoundtripList_map iso encodeKeywordData encodeKeywordData
      (jsonRoundtrip_encodeKeywordData iso),
    jsonRoundtripList_map iso encodeCompetitorInsight encodeCompetitorInsight
      (jsonRoundtrip_encodeCompetitorInsight iso)]

/-- The round-trip turns an encoded message into its reloaded shape: the
`Date` timestamp comes back as a string. -/
theorem jsonRoundtrip_encodeMessage (iso : Int → String) (m : Message) :
    jsonRoundtrip iso (encodeMessage m) = encodeMessageReloaded iso m := by
  simp [encodeMessage, encodeMessageReloaded, jsonRoundtrip, jsonRoundtripFields]

/-- The round-trip turns an encoded project into its reloaded shape. -/
theorem jsonRoundtrip_encodeProject (iso : Int → String) (p : SavedProject) :
    jsonRoundtrip iso (encodeProject p) = encodeProjectReloaded iso p := by
  rcases p with ⟨pid, pname, pbook, pmsgs, pmd, pcreated⟩
  cases pmd with
  | none =>
    show JsVal.obj [("id", .str pid), ("name", .str pname),
      ("book", jsonRoundtrip iso (encodeBook pbook)),
      ("messages", .arr (jsonRoundtripList iso (pmsgs.map encodeMessage))),
      ("marketData", .null), ("createdAt", .num pcreated)] = _
    rw [jsonRoundtrip_encodeBook,
      jsonRoundtripList_map iso encodeMessage (encodeMessageReloaded iso)
        (jsonRoundtrip_encodeMessage iso)]
    rfl
  | some d =>
    show JsVal.obj [("id", .str pid), ("name", .str pname),
      ("book", jsonRoundtrip iso (encodeBook pbook)),
      ("messages", .arr (jsonRoundtripList iso (pmsgs.map encodeMessage))),
      ("marketData", jsonRoundtrip iso (encodeMarketData d)),
      ("createdAt", .num pcreated)] = _
    rw [jsonRoundtrip_encodeBook, jsonRoundtrip_encodeMarketData,
      jsonRoundtripList_map iso encodeMessage (encodeMessageReloaded iso)
        (jsonRoundtrip_encodeMessage iso)]
    rfl

/-- Claim C5, counterexample: a project whose chat history holds one
message is not reproduced by the serialize/parse round-trip of the
persisted list: the message timestamp, a `Date` when saved, is revived as
a string.  The book component alone is reproduced exactly. -/
theorem claim_C5_counterexample :
    jsonRoundtrip isoW (encodeProject projectW) ≠ encodeProject projectW ∧
    jsonRoundtrip isoW (encodeBook projectW.book) = encodeBook projectW.book ∧
    ((objLookup "messages" (jsonRoundtrip isoW (encodeProject projectW))).bind
        (arrGet 0)).bind (objLookup "timestamp") = some (.str "0") ∧
    ((objLookup "messages" (encodeProject projectW)).bind
        (arrGet 0)).bind (objLookup "timestamp") = some (.date 0) := by
  refine ⟨?_, rfl, rfl, rfl⟩
  intro h
  have hL : ((objLookup "messages" (jsonRoundtrip isoW (encodeProject projectW))).bind
      (arrGet 0)).bind (objLookup "timestamp") = some (.str "0") := rfl
  rw [h] at hL
  have hR : ((objLookup "messages" (encodeProject projectW)).bind
      (arrGet 0)).bind (objLookup "timestamp") = some (.date 0) := rfl
  rw [hR] at hL
  exact JsVal.noConfusion (Option.some.inj hL)

/-- Claim C5, amended: saving then loading a project inside a session
restores exactly the saved book and the saved message list; across the
JSON serialize/parse round-trip of the persisted storage every field of
the project is reproduced except each message timestamp, which is revived
as its string serialization rather than as a `Date` (the book component in
particular is reproduced exactly). -/
theorem claim_C5_roundtrip (book : EBook) (msgs : List Message)
    (md : Option MarketData) (now : Int) (savedProjects : List SavedProject) :
    (App.handleSaveProject (some book) msgs md now savedProjects).1 =
      App.newProject book msgs md now :: savedProjects ∧
    App.onLoadProject (App.newProject book msgs md now) = (some book, msgs) ∧
    (∀ iso, jsonRoundtrip iso (encodeProject (App.newProject book msgs md now)) =
      encodeProjectReloaded iso (App.newProject book msgs md now)) ∧
    (∀ iso, jsonRoundtrip iso (encodeBook book) = encodeBook book) :=
  ⟨rfl, rfl, fun iso => jsonRoundtrip_encodeProject iso _,
   fun iso => jsonRoundtrip_encodeBook iso book⟩
